import Mathlib

/-!
Shallow embedding of the analysis pipeline of the agriculture commodity
advisory tool: the three analyzers and the aggregator of
`src/data_analyzer.py`, and the advisory cache and requester of
`src/llm_interface.py`.

Modelling conventions:
* Python floats are embedded as exact rationals (`Rat`); the numeric claims
  concern exact formulas and threshold comparisons.
* pandas dataframes are embedded as lists of row structures in file order.
* The per-process `analysis_results` dict is an association list where an
  update prepends its pair and lookup takes the first match (observationally
  the same as dict assignment plus lookup).
* Each analyzer logs an entry at its head (source: `logging.info` at the top
  of every analyzer); the log is kept in the state so that "the analyzer ran"
  is observable.
* `datetime.now()` is passed in explicitly (`now : Int` as a day number for
  filtering, `String` for rendered timestamps).
-/

namespace AgriAdvisor

/-- One row of the historical price dataset (date, crop, price).
Dates are day numbers. -/
structure PricePoint where
  date : Int
  crop : String
  price : Rat
deriving DecidableEq

/-- One row of the market news dataset. -/
structure NewsItem where
  date : Int
  crop : String
  headline : String
  sentiment : String
deriving DecidableEq

/-- One row of the weather forecast dataset. -/
structure WeatherDay where
  date : Int
  region : String
  temperature : Rat
  precipitation : Rat
  conditions : String
deriving DecidableEq

/-- The data source (`data_collector.py`): three retrieval operations,
embedded as pure per-selector datasets (the analyzers call them with
`force_refresh` defaulted to false, so a call is a pure read here). -/
structure DataCollector where
  historical_prices : String → List PricePoint
  market_news : String → List NewsItem
  weather_forecast : String → List WeatherDay

/-- Result record of `analyze_price_trends`.  The source stores
`volatility = filtered_data['price'].std()`; we carry the exact sample
variance in `volatility_sq` (its square root is a float the embedding does
not need: no claim concerns the volatility value). -/
structure PriceAnalysis where
  crop : String
  timeframe : String
  current_price : Rat
  average_price : Rat
  price_change : Rat
  price_change_pct : Rat
  trend : String
  volatility_sq : Rat
  projected_price : Rat
  projection_pct : Rat
deriving DecidableEq

/-- Result record of `analyze_market_sentiment`. -/
structure SentimentAnalysis where
  crop : String
  sentiment_score : Rat
  sentiment_trend : String
  positive_news_count : Nat
  negative_news_count : Nat
  neutral_news_count : Nat
  headlines : List String
deriving DecidableEq

/-- Result record of `analyze_weather_impact`. -/
structure WeatherAnalysis where
  crop : String
  region : String
  average_temperature : Rat
  total_precipitation : Rat
  weather_impact : String
  explanation : String
deriving DecidableEq

/-- A value stored in the `analysis_results` dict (the Python dict holds any
of the three analysis records under string keys). -/
inductive AnalysisVal where
  | price (a : PriceAnalysis)
  | sentiment (a : SentimentAnalysis)
  | weather (a : WeatherAnalysis)
deriving DecidableEq

/-- A log entry recording that an analyzer was invoked (source:
`logging.info` at the head of each analyzer). -/
inductive LogEntry where
  | priceRun (crop timeframe : String)
  | sentimentRun (crop : String)
  | weatherRun (crop region : String)
deriving DecidableEq

/-- The mutable state of `DataAnalyzer`: the process-lifetime
`analysis_results` mapping plus the invocation log. -/
structure AnalyzerState where
  results : List (String × AnalysisVal)
  log : List LogEntry
deriving DecidableEq

/-- First-match association lookup (Python `dict.get`). -/
def assocFind {α : Type} : List (String × α) → String → Option α
  | [], _ => none
  | (k, v) :: rest, key => if k = key then some v else assocFind rest key

@[simp] theorem assocFind_nil {α : Type} (key : String) :
    assocFind ([] : List (String × α)) key = none := rfl

@[simp] theorem assocFind_cons {α : Type} (k key : String) (v : α)
    (rest : List (String × α)) :
    assocFind ((k, v) :: rest) key =
      if k = key then some v else assocFind rest key := rfl

theorem assocFind_cons_self {α : Type} (k : String) (v : α)
    (rest : List (String × α)) :
    assocFind ((k, v) :: rest) k = some v := by
  rw [assocFind_cons, if_pos rfl]

/-- Dict assignment `d[k] = v`, as prepend (lookup takes the first match). -/
def insertResult (st : AnalyzerState) (k : String) (v : AnalysisVal) :
    AnalyzerState :=
  { st with results := (k, v) :: st.results }

/-- Append an invocation marker to the log. -/
def logRun (st : AnalyzerState) (e : LogEntry) : AnalyzerState :=
  { st with log := st.log ++ [e] }

/-- Mean of a list of rationals (`Series.mean`); only ever used on nonempty
lists by the claims. -/
def mean (xs : List Rat) : Rat := xs.sum / xs.length

/-- Sample variance (square of `Series.std()`, pandas default `ddof=1`).
pandas yields NaN for a single point; no claim depends on that case. -/
def sampleVar (xs : List Rat) : Rat :=
  if xs.length ≤ 1 then 0
  else (xs.map (fun x => (x - mean xs) ^ 2)).sum / ((xs.length : Rat) - 1)

/-- Timeframe label to day count (`data_analyzer.py` lines 28-35). -/
def timeframe_days (timeframe : String) : Nat :=
  if timeframe = "1 week" then 7
  else if timeframe = "1 month" then 30
  else if timeframe = "3 months" then 90
  else 30

/-- The trailing window of prices used by `analyze_price_trends`: rows whose
date is at least `now - days`, in file order, projected to the price column
(`data_analyzer.py` lines 37-43). -/
def priceWindow (dc : DataCollector) (now : Int) (crop timeframe : String) :
    List Rat :=
  ((dc.historical_prices crop).filter
      (fun p => now - (timeframe_days timeframe : Int) ≤ p.date)).map
    (fun p => p.price)

/-- The trend threshold ladder on `price_change_pct`
(`data_analyzer.py` lines 52-62). -/
def trendLabel (pct : Rat) : String :=
  if pct > 5 then "strongly increasing"
  else if pct > 1 then "slightly increasing"
  else if pct < -5 then "strongly decreasing"
  else if pct < -1 then "slightly decreasing"
  else "stable"

/-- The metric block of `analyze_price_trends` on a (nonempty) price window
(`data_analyzer.py` lines 46-89).  `iloc[-7:]` is `drop (n-7)`;
`iloc[-14:-7]` is `(take (n-7)).drop (n-14)` (Python slice clamping). -/
def price_metrics (crop timeframe : String) (window : List Rat) :
    PriceAnalysis :=
  let first := window.headD 0
  let current_price := window.getLastD 0
  let price_change := current_price - first
  let price_change_pct := price_change / first * 100
  let n := window.length
  let pp : Rat × Rat :=
    if 7 < n then
      let recent_trend :=
        mean (window.drop (n - 7)) - mean ((window.take (n - 7)).drop (n - 14))
      let projected_price := current_price + recent_trend
      (projected_price, (projected_price / current_price - 1) * 100)
    else (current_price, 0)
  { crop := crop
    timeframe := timeframe
    current_price := current_price
    average_price := mean window
    price_change := price_change
    price_change_pct := price_change_pct
    trend := trendLabel price_change_pct
    volatility_sq := sampleVar window
    projected_price := pp.1
    projection_pct := pp.2 }

/-- Key under which a price analysis is memoized: `f"{crop}_{timeframe}"`. -/
def priceKey (crop timeframe : String) : String := crop ++ "_" ++ timeframe

/-- Key of the sentiment analysis: `f"{crop}_sentiment"`. -/
def sentimentKey (crop : String) : String := crop ++ "_sentiment"

/-- Key of the weather analysis: `f"{crop}_weather"`. -/
def weatherKey (crop : String) : String := crop ++ "_weather"

/-- `DataAnalyzer.analyze_price_trends` (`data_analyzer.py` lines 20-99):
fetches the series, and before any filtering inspects
`historical_data['date'][0]` (line 39) — on a zero-row raw dataset that
lookup raises `KeyError`, modelled as `.error` (the date-string conversion
itself is abstracted: dates are comparable day numbers).  With a nonempty
raw series it filters to the trailing window; on a nonempty window it
computes the metrics, stores them under `f"{crop}_{timeframe}"` and returns
them; on an empty window it returns `None` and stores nothing (lines
97-99).  Chart generation is a rendering side effect outside the analytic
contract. -/
def analyze_price_trends (dc : DataCollector) (now : Int) (st : AnalyzerState)
    (crop timeframe : String) :
    Except String (AnalyzerState × Option PriceAnalysis) :=
  let st1 := logRun st (.priceRun crop timeframe)
  if (dc.historical_prices crop).isEmpty then
    .error "KeyError: 0"
  else
    let window := priceWindow dc now crop timeframe
    if window.isEmpty then .ok (st1, none)
    else
      let a := price_metrics crop timeframe window
      .ok (insertResult st1 (priceKey crop timeframe) (.price a), some a)

/-- The metric block of `analyze_market_sentiment` on a (nonempty) news list
(`data_analyzer.py` lines 108-146). -/
def sentiment_metrics (crop : String) (news : List NewsItem) :
    SentimentAnalysis :=
  let pos := (news.filter (fun x => x.sentiment = "positive")).length
  let neg := (news.filter (fun x => x.sentiment = "negative")).length
  let neu := (news.filter (fun x => x.sentiment = "neutral")).length
  let total := pos + neg + neu
  let score : Rat := if 0 < total then ((pos : Rat) - (neg : Rat)) / (total : Rat) else 0
  let tr :=
    if score > mkRat 1 2 then "strongly positive"
    else if score > mkRat 1 10 then "positive"
    else if score < -(mkRat 1 2) then "strongly negative"
    else if score < -(mkRat 1 10) then "negative"
    else "neutral"
  { crop := crop
    sentiment_score := score
    sentiment_trend := tr
    positive_news_count := pos
    negative_news_count := neg
    neutral_news_count := neu
    headlines := news.map (fun x => x.headline) }

/-- `DataAnalyzer.analyze_market_sentiment` (`data_analyzer.py`
lines 101-149). -/
def analyze_market_sentiment (dc : DataCollector) (st : AnalyzerState)
    (crop : String) : AnalyzerState × Option SentimentAnalysis :=
  let st1 := logRun st (.sentimentRun crop)
  let news := dc.market_news crop
  if news.isEmpty then (st1, none)
  else
    let a := sentiment_metrics crop news
    (insertResult st1 (sentimentKey crop) (.sentiment a), some a)

/-- The crop-specific weather classification ladder
(`data_analyzer.py` lines 163-202), returning (impact, explanation). -/
def weatherImpact (crop : String) (avg_temp total_precip : Rat) :
    String × String :=
  if crop = "wheat" then
    if avg_temp > 25 ∧ total_precip < 10 then
      ("negative", "High temperatures and low precipitation may stress wheat crops.")
    else if avg_temp < 15 ∧ total_precip > 30 then
      ("negative", "Low temperatures and excessive rainfall may damage wheat crops.")
    else
      ("neutral to positive", "Weather conditions appear favorable for wheat crops.")
  else if crop = "corn" then
    if avg_temp < 18 ∨ total_precip < 15 then
      ("negative", "Low temperatures or insufficient rainfall may reduce corn yields.")
    else if avg_temp > 30 ∧ total_precip < 20 then
      ("negative", "High heat and insufficient moisture may stress corn crops.")
    else
      ("neutral to positive", "Weather conditions appear favorable for corn growth.")
  else if crop = "soybeans" then
    if avg_temp < 20 ∨ total_precip < 10 then
      ("negative", "Low temperatures or dry conditions may reduce soybean yields.")
    else if total_precip > 40 then
      ("negative", "Excessive rainfall may lead to disease pressure in soybeans.")
    else
      ("neutral to positive", "Weather conditions appear favorable for soybean development.")
  else
    ("uncertain", "Weather impact analysis not specifically calibrated for " ++ crop ++ ".")

/-- The metric block of `analyze_weather_impact` on a (nonempty) forecast
(`data_analyzer.py` lines 158-211). -/
def weather_metrics (crop region : String) (w : List WeatherDay) :
    WeatherAnalysis :=
  let avg_temp := mean (w.map (fun d => d.temperature))
  let total_precip := (w.map (fun d => d.precipitation)).sum
  let ie := weatherImpact crop avg_temp total_precip
  { crop := crop
    region := region
    average_temperature := avg_temp
    total_precipitation := total_precip
    weather_impact := ie.1
    explanation := ie.2 }

/-- `DataAnalyzer.analyze_weather_impact` (`data_analyzer.py`
lines 151-217). -/
def analyze_weather_impact (dc : DataCollector) (st : AnalyzerState)
    (crop region : String) : AnalyzerState × Option WeatherAnalysis :=
  let st1 := logRun st (.weatherRun crop region)
  let w := dc.weather_forecast region
  if w.isEmpty then (st1, none)
  else
    let a := weather_metrics crop region w
    (insertResult st1 (weatherKey crop) (.weather a), some a)

/-- The combined record returned by `get_comprehensive_analysis`.  The three
sections are `analysis_results.get(key, {})`: `none` embeds the empty dict. -/
structure Comprehensive where
  crop : String
  timeframe : String
  price_analysis : Option AnalysisVal
  sentiment_analysis : Option AnalysisVal
  weather_analysis : Option AnalysisVal
  analysis_date : String
deriving DecidableEq

/-- The price step of the aggregator: run `analyze_price_trends` only when
its key is absent (`data_analyzer.py` lines 246-247).  The aggregator does
not catch, so a `KeyError` raised by the analyzer propagates. -/
def stepPrice (dc : DataCollector) (now : Int) (st : AnalyzerState)
    (crop timeframe : String) : Except String AnalyzerState :=
  if (assocFind st.results (priceKey crop timeframe)).isNone then
    match analyze_price_trends dc now st crop timeframe with
    | .error e => .error e
    | .ok p => .ok p.1
  else .ok st

/-- The sentiment step of the aggregator (`data_analyzer.py`
lines 249-250). -/
def stepSentiment (dc : DataCollector) (st : AnalyzerState) (crop : String) :
    AnalyzerState :=
  if (assocFind st.results (sentimentKey crop)).isNone then
    (analyze_market_sentiment dc st crop).1
  else st

/-- The weather step of the aggregator (`data_analyzer.py`
lines 252-253; region defaulted to "midwest"). -/
def stepWeather (dc : DataCollector) (st : AnalyzerState) (crop : String) :
    AnalyzerState :=
  if (assocFind st.results (weatherKey crop)).isNone then
    (analyze_weather_impact dc st crop "midwest").1
  else st

/-- `DataAnalyzer.get_comprehensive_analysis` (`data_analyzer.py`
lines 241-270): runs each analyzer only when its key is absent, then builds
the record from the (final) mapping with empty-dict defaults.  A `KeyError`
raised inside `analyze_price_trends` (empty raw series) is not caught and
propagates out. -/
def get_comprehensive_analysis (dc : DataCollector) (now : Int)
    (st : AnalyzerState) (crop timeframe analysis_date : String) :
    Except String (AnalyzerState × Comprehensive) :=
  match stepPrice dc now st crop timeframe with
  | .error e => .error e
  | .ok st1 =>
    let st3 := stepWeather dc (stepSentiment dc st1 crop) crop
    .ok (st3,
      { crop := crop
        timeframe := timeframe
        price_analysis := assocFind st3.results (priceKey crop timeframe)
        sentiment_analysis := assocFind st3.results (sentimentKey crop)
        weather_analysis := assocFind st3.results (weatherKey crop)
        analysis_date := analysis_date })

/-! ## Advisory cache and requester (`llm_interface.py`) -/

/-- Project a stored section to a price analysis (`dict.get` on numeric
price fields yields `None` unless the section really is a price record). -/
def sectionPrice : Option AnalysisVal → Option PriceAnalysis
  | some (.price a) => some a
  | _ => none

/-- Project a stored section to a sentiment analysis. -/
def sectionSentiment : Option AnalysisVal → Option SentimentAnalysis
  | some (.sentiment a) => some a
  | _ => none

/-- Project a stored section to a weather analysis. -/
def sectionWeather : Option AnalysisVal → Option WeatherAnalysis
  | some (.weather a) => some a
  | _ => none

/-- The `data_summary` of an advisory response: the 5 fixed fields pulled by
`.get` from the sub-analyses (`llm_interface.py` lines 73-79); absent keys
give `None`. -/
structure DataSummary where
  current_price : Option Rat
  price_trend : Option String
  projected_price_change : Option Rat
  market_sentiment : Option String
  weather_impact : Option String
deriving DecidableEq

/-- The structured advisory response (`llm_interface.py` lines 69-81 on
success, lines 92-97 degraded, where `data_summary` is omitted). -/
structure AdvisoryResponse where
  query : String
  crop : String
  advice : String
  data_summary : Option DataSummary
  timestamp : String
deriving DecidableEq

/-- Build the `data_summary` from the comprehensive record
(`llm_interface.py` lines 73-79). -/
def data_summary_of (a : Comprehensive) : DataSummary :=
  { current_price := (sectionPrice a.price_analysis).map (fun p => p.current_price)
    price_trend := (sectionPrice a.price_analysis).map (fun p => p.trend)
    projected_price_change := (sectionPrice a.price_analysis).map (fun p => p.projection_pct)
    market_sentiment := (sectionSentiment a.sentiment_analysis).map (fun s => s.sentiment_trend)
    weather_impact := (sectionWeather a.weather_analysis).map (fun w => w.weather_impact) }

/-- `LLMAdvisor._format_prompt` (`llm_interface.py` lines 99-134).  The
f-string formats the numeric price fields and the numeric weather fields
with float format specs; when such a field is missing the `.get` default
`N/A` (a string) makes the format spec raise, which happens outside the
`try` of `get_advisory` — embedded as `.error`.  The exact `:.2f` rendering
of numbers is abstracted to `toString` (no claim depends on the text). -/
def format_prompt (a : Comprehensive) (farmer_query : String) :
    Except String String :=
  match sectionPrice a.price_analysis, sectionWeather a.weather_analysis with
  | some p, some w =>
    .ok ("Here is the current market analysis for " ++ a.crop
      ++ " PRICE ANALYSIS " ++ a.timeframe
      ++ " Current price " ++ toString p.current_price
      ++ " Price trend " ++ p.trend
      ++ " Price change " ++ toString p.price_change_pct
      ++ " Projected price change " ++ toString p.projection_pct
      ++ " Price volatility " ++ toString p.volatility_sq
      ++ " MARKET SENTIMENT "
      ++ (match sectionSentiment a.sentiment_analysis with
          | some s => s.sentiment_trend
          | none => "N/A")
      ++ " Recent headlines "
      ++ String.intercalate " - "
          ((match sectionSentiment a.sentiment_analysis with
            | some s => s.headlines
            | none => []).take 3)
      ++ " WEATHER FORECAST IMPACT " ++ w.weather_impact
      ++ " Explanation " ++ w.explanation
      ++ " Average temperature " ++ toString w.average_temperature
      ++ " Total precipitation forecast " ++ toString w.total_precipitation
      ++ " QUESTION " ++ farmer_query)
  | _, _ => .error "Unknown format code f for object of type str"

/-- Rendering of one stored analysis record inside `str(analysis_data)`.
The exact Python `repr` text (quoting, float rendering) is abstracted to a
field-by-field rendering; the claims depend only on the serialization being
a deterministic function of the record contents. -/
def serializeVal : AnalysisVal → String
  | .price p =>
    "price<" ++ p.crop ++ "|" ++ p.timeframe ++ "|" ++ toString p.current_price
      ++ "|" ++ toString p.average_price ++ "|" ++ toString p.price_change
      ++ "|" ++ toString p.price_change_pct ++ "|" ++ p.trend
      ++ "|" ++ toString p.volatility_sq ++ "|" ++ toString p.projected_price
      ++ "|" ++ toString p.projection_pct ++ ">"
  | .sentiment s =>
    "sentiment<" ++ s.crop ++ "|" ++ toString s.sentiment_score
      ++ "|" ++ s.sentiment_trend ++ "|" ++ toString s.positive_news_count
      ++ "|" ++ toString s.negative_news_count ++ "|" ++ toString s.neutral_news_count
      ++ "|" ++ String.intercalate "," s.headlines ++ ">"
  | .weather w =>
    "weather<" ++ w.crop ++ "|" ++ w.region ++ "|" ++ toString w.average_temperature
      ++ "|" ++ toString w.total_precipitation ++ "|" ++ w.weather_impact
      ++ "|" ++ w.explanation ++ ">"

/-- Rendering of a section: the empty dict prints as an empty marker. -/
def serializeSection : Option AnalysisVal → String
  | none => "<>"
  | some v => serializeVal v

/-- Model of `str(analysis_data)` for the comprehensive record
(`llm_interface.py` line 25). -/
def serializeAnalysis (a : Comprehensive) : String :=
  "comprehensive<" ++ a.crop ++ "|" ++ a.timeframe
    ++ "|" ++ serializeSection a.price_analysis
    ++ "|" ++ serializeSection a.sentiment_analysis
    ++ "|" ++ serializeSection a.weather_analysis
    ++ "|" ++ a.analysis_date ++ ">"

/-- Model of `hashlib.md5(...).hexdigest()`: the digest is modelled as an
injective key derivation (collisions of the real digest are outside the
embedding; the spec treats the key as a deterministic content hash). -/
def md5_model (s : String) : String := s

/-- The cache key: hash of `f"{str(analysis_data)}_{farmer_query}"`
(`llm_interface.py` line 25). -/
def cache_key (a : Comprehensive) (farmer_query : String) : String :=
  md5_model (serializeAnalysis a ++ "_" ++ farmer_query)

/-- Decidable equality for `Except` (not provided by the core library). -/
instance exceptDecEq {ε α : Type} [DecidableEq ε] [DecidableEq α] :
    DecidableEq (Except ε α) := fun a b =>
  match a, b with
  | .error e, .error f =>
    if h : e = f then isTrue (by rw [h])
    else isFalse (by intro hc; injection hc; exact h (by assumption))
  | .ok x, .ok y =>
    if h : x = y then isTrue (by rw [h])
    else isFalse (by intro hc; injection hc; exact h (by assumption))
  | .error _, .ok _ => isFalse (by intro hc; exact Except.noConfusion hc)
  | .ok _, .error _ => isFalse (by intro hc; exact Except.noConfusion hc)

/-- An on-disk cache file: either a readable stored response or a corrupt
entry whose `json.load` raises (read failure). -/
abbrev CacheEntry := Except String AdvisoryResponse

/-- The on-disk advisory cache directory, keyed by cache key. -/
abbrev CacheFS := List (String × CacheEntry)

/-- The cache-read step of `get_advisory` (`llm_interface.py` lines 29-36):
skipped under `force_refresh`; a read failure is logged and falls through
to regeneration. -/
def cache_read (fs : CacheFS) (key : String) (force_refresh : Bool) :
    Option AdvisoryResponse :=
  if force_refresh then none
  else
    match assocFind fs key with
    | some (.ok r) => some r
    | some (.error _) => none
    | none => none

/-- The degraded response of the `except` path
(`llm_interface.py` lines 92-97): error text in `advice`, no
`data_summary`. -/
def degraded_response (crop farmer_query e now : String) : AdvisoryResponse :=
  { query := farmer_query
    crop := crop
    advice := "Unable to generate advisory at this time. Error: " ++ e
    data_summary := none
    timestamp := now }

/-- The successful response (`llm_interface.py` lines 69-81). -/
def fresh_response (a : Comprehensive) (farmer_query advice_text now : String) :
    AdvisoryResponse :=
  { query := farmer_query
    crop := a.crop
    advice := advice_text
    data_summary := some (data_summary_of a)
    timestamp := now }

/-- `LLMAdvisor.get_advisory` (`llm_interface.py` lines 21-97).
Parameters model the environment: `llm` is the external chat service
(prompt to generated text or error), `writeErr` is the outcome of the cache
write (`some e` raises `e` at the `json.dump`), `now` the rendered
timestamp.  The outer `Except` models an exception escaping the function:
the prompt formatting (line 48) runs outside the `try`, so its failure
escapes; everything inside the `try` — the LLM call, response structuring
and the cache write — is caught and degrades (lines 90-97).  On a write
failure the entry is not (completely) written; the embedding leaves the
cache unchanged. -/
def get_advisory (fs : CacheFS) (llm : String → Except String String)
    (writeErr : Option String) (now : String) (analysis : Comprehensive)
    (farmer_query : String) (force_refresh : Bool) :
    Except String (CacheFS × AdvisoryResponse) :=
  let key := cache_key analysis farmer_query
  match cache_read fs key force_refresh with
  | some r => .ok (fs, r)
  | none =>
    match format_prompt analysis farmer_query with
    | .error e => .error e
    | .ok prompt =>
      match llm prompt with
      | .error e => .ok (fs, degraded_response analysis.crop farmer_query e now)
      | .ok advice_text =>
        match writeErr with
        | some e => .ok (fs, degraded_response analysis.crop farmer_query e now)
        | none =>
          let resp := fresh_response analysis farmer_query advice_text now
          .ok ((key, .ok resp) :: fs, resp)

/-! ## Concrete fixtures used by witnesses -/

/-- A collector with no data at all. -/
def dcEmpty : DataCollector :=
  { historical_prices := fun _ => []
    market_news := fun _ => []
    weather_forecast := fun _ => [] }

/-- The 8-day price series of the spec's example scenario. -/
def samplePrices : List PricePoint :=
  [⟨1, "wheat", 100⟩, ⟨2, "wheat", 102⟩, ⟨3, "wheat", 99⟩, ⟨4, "wheat", 101⟩,
   ⟨5, "wheat", 105⟩, ⟨6, "wheat", 108⟩, ⟨7, "wheat", 107⟩, ⟨8, "wheat", 110⟩]

/-- News sample: 3 positive, 1 negative (spec's boundary example). -/
def sampleNews : List NewsItem :=
  [⟨1, "wheat", "Global demand for wheat increases amid supply concerns", "positive"⟩,
   ⟨2, "wheat", "New trade deal may boost wheat exports", "positive"⟩,
   ⟨3, "wheat", "Weather conditions threaten wheat yield in major producing regions", "negative"⟩,
   ⟨4, "wheat", "Analysts predict strong wheat market for next quarter", "positive"⟩]

/-- A short midwest forecast. -/
def sampleWeatherDays : List WeatherDay :=
  [⟨1, "midwest", 20, 5, "sunny"⟩, ⟨2, "midwest", 24, 8, "cloudy"⟩]

/-- A collector holding the sample datasets. -/
def dcSample : DataCollector :=
  { historical_prices := fun _ => samplePrices
    market_news := fun _ => sampleNews
    weather_forecast := fun _ => sampleWeatherDays }

/-- The analyzer state at process start. -/
def st0 : AnalyzerState := { results := [], log := [] }

/-- A concrete price-analysis record (the values of the spec's example
window; spelled with literal rationals so that concrete evaluation does not
depend on rational arithmetic). -/
def samplePrice : PriceAnalysis :=
  { crop := "wheat", timeframe := "1 month", current_price := 110
    average_price := 104, price_change := 10, price_change_pct := 10
    trend := "strongly increasing", volatility_sq := mkRat 116 7
    projected_price := mkRat 802 7, projection_pct := mkRat 320 77 }

/-- A concrete sentiment-analysis record (3 positive, 1 negative). -/
def sampleSentiment : SentimentAnalysis :=
  { crop := "wheat", sentiment_score := mkRat 1 2, sentiment_trend := "positive"
    positive_news_count := 3, negative_news_count := 1, neutral_news_count := 0
    headlines := sampleNews.map (fun x => x.headline) }

/-- A concrete weather-analysis record. -/
def sampleWeather : WeatherAnalysis :=
  { crop := "wheat", region := "midwest", average_temperature := 22
    total_precipitation := 13, weather_impact := "neutral to positive"
    explanation := "Weather conditions appear favorable for wheat crops." }

/-- A comprehensive record with all three sections present. -/
def sampleComp : Comprehensive :=
  { crop := "wheat"
    timeframe := "1 month"
    price_analysis := some (.price samplePrice)
    sentiment_analysis := some (.sentiment sampleSentiment)
    weather_analysis := some (.weather sampleWeather)
    analysis_date := "2024-01-01" }

/-- The prompt the sample comprehensive record formats to. -/
def samplePrompt : String :=
  ((format_prompt sampleComp "Should I sell my wheat now?").toOption).getD ""

/-- The prompt the sample comprehensive record formats to for the short
query "q". -/
def samplePromptQ : String :=
  ((format_prompt sampleComp "q").toOption).getD ""

/-! ## Unfolding lemmas for the stateful analyzers -/

theorem eq_nil_of_isEmpty {α : Type} {l : List α} (h : l.isEmpty = true) :
    l = [] := by
  cases l with
  | nil => rfl
  | cons a t => simp at h

theorem isEmpty_false_of_ne_nil {α : Type} {l : List α} (h : l ≠ []) :
    l.isEmpty = false := by
  cases l with
  | nil => exact absurd rfl h
  | cons a t => rfl

/-- An empty raw series gives an empty window. -/
theorem priceWindow_nil_of_series_nil (dc : DataCollector) (now : Int)
    (crop tf : String) (h : dc.historical_prices crop = []) :
    priceWindow dc now crop tf = [] := by
  simp [priceWindow, h]

/-- With an empty raw price series the analyzer raises (the unguarded
`historical_data['date'][0]` of line 39). -/
theorem analyze_price_trends_raises (dc : DataCollector) (now : Int)
    (st : AnalyzerState) (crop tf : String)
    (he : dc.historical_prices crop = []) :
    analyze_price_trends dc now st crop tf = .error "KeyError: 0" := by
  simp [analyze_price_trends, he]

/-- The analyzer raises only on an empty raw series. -/
theorem analyze_price_trends_error (dc : DataCollector) (now : Int)
    (st : AnalyzerState) (crop tf e : String)
    (h : analyze_price_trends dc now st crop tf = .error e) :
    dc.historical_prices crop = [] := by
  simp only [analyze_price_trends] at h
  split at h
  · next hc => exact eq_nil_of_isEmpty hc
  · split at h <;> simp at h

/-- Characterization of a successful run of the price analyzer: the log
gains the invocation marker, and result plus stored mapping are determined
by the emptiness of the filtered window. -/
theorem analyze_price_trends_ok_spec (dc : DataCollector) (now : Int)
    (st : AnalyzerState) (crop tf : String)
    (p : AnalyzerState × Option PriceAnalysis)
    (hA : analyze_price_trends dc now st crop tf = .ok p) :
    p.1.log = st.log ++ [.priceRun crop tf] ∧
    p.2 = (if (priceWindow dc now crop tf).isEmpty then none
           else some (price_metrics crop tf (priceWindow dc now crop tf))) ∧
    p.1.results =
      (if (priceWindow dc now crop tf).isEmpty then st.results
       else (priceKey crop tf,
              .price (price_metrics crop tf (priceWindow dc now crop tf)))
            :: st.results) := by
  simp only [analyze_price_trends] at hA
  split at hA
  · simp at hA
  · split at hA
    · next hw =>
      cases hA
      refine ⟨rfl, ?_, ?_⟩ <;> rw [if_pos hw] <;> rfl
    · next hw =>
      cases hA
      refine ⟨rfl, ?_, ?_⟩ <;> rw [if_neg hw] <;> rfl

/-- With a nonempty raw series the analyzer runs without raising. -/
theorem analyze_price_trends_run (dc : DataCollector) (now : Int)
    (st : AnalyzerState) (crop tf : String)
    (hne : dc.historical_prices crop ≠ []) :
    analyze_price_trends dc now st crop tf =
      (if (priceWindow dc now crop tf).isEmpty then
        .ok (logRun st (.priceRun crop tf), none)
      else
        .ok (insertResult (logRun st (.priceRun crop tf)) (priceKey crop tf)
               (.price (price_metrics crop tf (priceWindow dc now crop tf))),
             some (price_metrics crop tf (priceWindow dc now crop tf)))) := by
  simp only [analyze_price_trends, isEmpty_false_of_ne_nil hne]
  rfl

theorem analyze_market_sentiment_snd (dc : DataCollector) (st : AnalyzerState)
    (crop : String) :
    (analyze_market_sentiment dc st crop).2 =
      if (dc.market_news crop).isEmpty then none
      else some (sentiment_metrics crop (dc.market_news crop)) := by
  simp only [analyze_market_sentiment]
  split <;> rfl

theorem analyze_market_sentiment_results (dc : DataCollector)
    (st : AnalyzerState) (crop : String) :
    (analyze_market_sentiment dc st crop).1.results =
      if (dc.market_news crop).isEmpty then st.results
      else (sentimentKey crop,
              .sentiment (sentiment_metrics crop (dc.market_news crop)))
            :: st.results := by
  simp only [analyze_market_sentiment]
  split <;> rfl

theorem analyze_market_sentiment_log (dc : DataCollector) (st : AnalyzerState)
    (crop : String) :
    (analyze_market_sentiment dc st crop).1.log =
      st.log ++ [.sentimentRun crop] := by
  simp only [analyze_market_sentiment]
  split <;> rfl

theorem analyze_weather_impact_snd (dc : DataCollector) (st : AnalyzerState)
    (crop region : String) :
    (analyze_weather_impact dc st crop region).2 =
      if (dc.weather_forecast region).isEmpty then none
      else some (weather_metrics crop region (dc.weather_forecast region)) := by
  simp only [analyze_weather_impact]
  split <;> rfl

theorem analyze_weather_impact_results (dc : DataCollector)
    (st : AnalyzerState) (crop region : String) :
    (analyze_weather_impact dc st crop region).1.results =
      if (dc.weather_forecast region).isEmpty then st.results
      else (weatherKey crop,
              .weather (weather_metrics crop region (dc.weather_forecast region)))
            :: st.results := by
  simp only [analyze_weather_impact]
  split <;> rfl

theorem analyze_weather_impact_log (dc : DataCollector) (st : AnalyzerState)
    (crop region : String) :
    (analyze_weather_impact dc st crop region).1.log =
      st.log ++ [.weatherRun crop region] := by
  simp only [analyze_weather_impact]
  split <;> rfl

/-- The trend field of the price metrics is the threshold ladder applied to
the record's own `price_change_pct`. -/
theorem price_metrics_trend (crop tf : String) (w : List Rat) :
    (price_metrics crop tf w).trend =
      trendLabel (price_metrics crop tf w).price_change_pct := rfl

/-! ## Claims -/

/-- C2: For every non-empty price window, `analyze_price_trends` completes
and the trend label is the pure function of `price_change_pct` given by
the threshold ladder (>5 strongly increasing, else >1 slightly increasing,
else <-5 strongly decreasing, else <-1 slightly decreasing, else stable);
the boundary values 5, 1, 0, -1, -5 fall through to the weaker branch. -/
theorem price_trend_is_threshold_ladder (dc : DataCollector) (now : Int)
    (st : AnalyzerState) (crop tf : String)
    (h : priceWindow dc now crop tf ≠ []) :
    ∃ stp a, analyze_price_trends dc now st crop tf = .ok stp ∧
      stp.2 = some a ∧
      a.trend =
        (if a.price_change_pct > 5 then "strongly increasing"
         else if a.price_change_pct > 1 then "slightly increasing"
         else if a.price_change_pct < -5 then "strongly decreasing"
         else if a.price_change_pct < -1 then "slightly decreasing"
         else "stable") ∧
      (a.price_change_pct = 5 → a.trend = "slightly increasing") ∧
      (a.price_change_pct = 1 → a.trend = "stable") ∧
      (a.price_change_pct = 0 → a.trend = "stable") ∧
      (a.price_change_pct = -1 → a.trend = "stable") ∧
      (a.price_change_pct = -5 → a.trend = "slightly decreasing") := by
  have hser : dc.historical_prices crop ≠ [] := by
    intro hs
    exact h (priceWindow_nil_of_series_nil dc now crop tf hs)
  have hwf := isEmpty_false_of_ne_nil h
  refine ⟨(insertResult (logRun st (.priceRun crop tf)) (priceKey crop tf)
            (.price (price_metrics crop tf (priceWindow dc now crop tf))),
           some (price_metrics crop tf (priceWindow dc now crop tf))),
          price_metrics crop tf (priceWindow dc now crop tf),
          ?_, rfl, ?_, ?_, ?_, ?_, ?_, ?_⟩
  · rw [analyze_price_trends_run dc now st crop tf hser, hwf]
    rfl
  · rw [price_metrics_trend]; rfl
  · intro hq; rw [price_metrics_trend, hq]; decide
  · intro hq; rw [price_metrics_trend, hq]; decide
  · intro hq; rw [price_metrics_trend, hq]; decide
  · intro hq; rw [price_metrics_trend, hq]; decide
  · intro hq; rw [price_metrics_trend, hq]; decide

/-- Witness for C2 at the sample collector (the spec's 8-point example
window). -/
theorem price_trend_is_threshold_ladder_witness :
    priceWindow dcSample 30 "wheat" "1 month" ≠ [] ∧
    (∃ stp a, analyze_price_trends dcSample 30 st0 "wheat" "1 month" = .ok stp ∧
      stp.2 = some a ∧
      a.trend =
        (if a.price_change_pct > 5 then "strongly increasing"
         else if a.price_change_pct > 1 then "slightly increasing"
         else if a.price_change_pct < -5 then "strongly decreasing"
         else if a.price_change_pct < -1 then "slightly decreasing"
         else "stable") ∧
      (a.price_change_pct = 5 → a.trend = "slightly increasing") ∧
      (a.price_change_pct = 1 → a.trend = "stable") ∧
      (a.price_change_pct = 0 → a.trend = "stable") ∧
      (a.price_change_pct = -1 → a.trend = "stable") ∧
      (a.price_change_pct = -5 → a.trend = "slightly decreasing")) :=
  ⟨by decide,
   price_trend_is_threshold_ladder dcSample 30 st0 "wheat" "1 month" (by decide)⟩

/-- C7: For every non-empty price window, `analyze_price_trends` completes
and, if the window has more than 7 points, the projection adds the
difference of the mean of the last 7 points and the mean of the points at
offsets -14..-8 to the current price, and the projection percentage is
`(projected/current - 1) * 100`; with at most 7 points the projection is
zero-change. -/
theorem price_projection_formula (dc : DataCollector) (now : Int)
    (st : AnalyzerState) (crop tf : String) (w : List Rat)
    (hw : priceWindow dc now crop tf = w) (h : w ≠ []) :
    ∃ stp a, analyze_price_trends dc now st crop tf = .ok stp ∧
      stp.2 = some a ∧
      (7 < w.length →
        a.projected_price = a.current_price +
          (mean (w.drop (w.length - 7)) -
            mean ((w.take (w.length - 7)).drop (w.length - 14))) ∧
        a.projection_pct = (a.projected_price / a.current_price - 1) * 100) ∧
      (w.length ≤ 7 → a.projected_price = a.current_price ∧ a.projection_pct = 0) := by
  subst hw
  have hser : dc.historical_prices crop ≠ [] := by
    intro hs
    exact h (priceWindow_nil_of_series_nil dc now crop tf hs)
  have hwf := isEmpty_false_of_ne_nil h
  refine ⟨(insertResult (logRun st (.priceRun crop tf)) (priceKey crop tf)
            (.price (price_metrics crop tf (priceWindow dc now crop tf))),
           some (price_metrics crop tf (priceWindow dc now crop tf))),
          price_metrics crop tf (priceWindow dc now crop tf),
          ?_, rfl, ?_, ?_⟩
  · rw [analyze_price_trends_run dc now st crop tf hser, hwf]
    rfl
  · intro h7
    constructor
    · simp only [price_metrics]
      rw [if_pos h7]
    · simp only [price_metrics]
      rw [if_pos h7]
  · intro h7
    have h7f : ¬ 7 < (priceWindow dc now crop tf).length := by omega
    constructor
    · simp only [price_metrics]
      rw [if_neg h7f]
    · simp only [price_metrics]
      rw [if_neg h7f]

/-- Witness for C7 at the sample collector (8 points, so the >7 branch is
exercised). -/
theorem price_projection_formula_witness :
    priceWindow dcSample 30 "wheat" "1 month" ≠ [] ∧
    (∃ stp a, analyze_price_trends dcSample 30 st0 "wheat" "1 month" = .ok stp ∧
      stp.2 = some a ∧
      (7 < (priceWindow dcSample 30 "wheat" "1 month").length →
        a.projected_price = a.current_price +
          (mean ((priceWindow dcSample 30 "wheat" "1 month").drop
              ((priceWindow dcSample 30 "wheat" "1 month").length - 7)) -
            mean (((priceWindow dcSample 30 "wheat" "1 month").take
                ((priceWindow dcSample 30 "wheat" "1 month").length - 7)).drop
              ((priceWindow dcSample 30 "wheat" "1 month").length - 14))) ∧
        a.projection_pct = (a.projected_price / a.current_price - 1) * 100) ∧
      ((priceWindow dcSample 30 "wheat" "1 month").length ≤ 7 →
        a.projected_price = a.current_price ∧ a.projection_pct = 0)) :=
  ⟨by decide,
   price_projection_formula dcSample 30 st0 "wheat" "1 month"
     (priceWindow dcSample 30 "wheat" "1 month") rfl (by decide)⟩

/-- The sentiment score of the metrics record, as stored. -/
theorem sentiment_metrics_score (crop : String) (news : List NewsItem) :
    (sentiment_metrics crop news).sentiment_score =
      (if 0 < (news.filter (fun x => x.sentiment = "positive")).length +
              (news.filter (fun x => x.sentiment = "negative")).length +
              (news.filter (fun x => x.sentiment = "neutral")).length then
        (((news.filter (fun x => x.sentiment = "positive")).length : Rat) -
          ((news.filter (fun x => x.sentiment = "negative")).length : Rat)) /
          (((news.filter (fun x => x.sentiment = "positive")).length +
            (news.filter (fun x => x.sentiment = "negative")).length +
            (news.filter (fun x => x.sentiment = "neutral")).length : Nat) : Rat)
      else 0) := rfl

/-- The sentiment trend is the ladder applied to the record's own score. -/
theorem sentiment_metrics_trend (crop : String) (news : List NewsItem) :
    (sentiment_metrics crop news).sentiment_trend =
      (if (sentiment_metrics crop news).sentiment_score > mkRat 1 2 then "strongly positive"
       else if (sentiment_metrics crop news).sentiment_score > mkRat 1 10 then "positive"
       else if (sentiment_metrics crop news).sentiment_score < -(mkRat 1 2) then "strongly negative"
       else if (sentiment_metrics crop news).sentiment_score < -(mkRat 1 10) then "negative"
       else "neutral") := rfl

/-- The stored sentiment counts are the filter counts. -/
theorem sentiment_metrics_counts (crop : String) (news : List NewsItem) :
    (sentiment_metrics crop news).positive_news_count =
        (news.filter (fun x => x.sentiment = "positive")).length ∧
      (sentiment_metrics crop news).negative_news_count =
        (news.filter (fun x => x.sentiment = "negative")).length ∧
      (sentiment_metrics crop news).neutral_news_count =
        (news.filter (fun x => x.sentiment = "neutral")).length :=
  ⟨rfl, rfl, rfl⟩

/-- C6: For every non-empty news list, the sentiment score equals
(positive - negative) / total where total counts positive, negative and
neutral items; it always lies in [-1, 1]; and when the total is 0 no
division is performed, the score is 0 and the trend is "neutral". -/
theorem sentiment_score_bounds (dc : DataCollector) (st : AnalyzerState)
    (crop : String) (h : dc.market_news crop ≠ []) :
    ∃ a, (analyze_market_sentiment dc st crop).2 = some a ∧
      a.positive_news_count =
        ((dc.market_news crop).filter (fun x => x.sentiment = "positive")).length ∧
      a.negative_news_count =
        ((dc.market_news crop).filter (fun x => x.sentiment = "negative")).length ∧
      a.neutral_news_count =
        ((dc.market_news crop).filter (fun x => x.sentiment = "neutral")).length ∧
      (0 < a.positive_news_count + a.negative_news_count + a.neutral_news_count →
        a.sentiment_score =
          ((a.positive_news_count : Rat) - (a.negative_news_count : Rat)) /
            ((a.positive_news_count + a.negative_news_count +
                a.neutral_news_count : Nat) : Rat)) ∧
      (a.positive_news_count + a.negative_news_count + a.neutral_news_count = 0 →
        a.sentiment_score = 0 ∧ a.sentiment_trend = "neutral") ∧
      -1 ≤ a.sentiment_score ∧ a.sentiment_score ≤ 1 := by
  have hne := isEmpty_false_of_ne_nil h
  obtain ⟨hcp, hcn, hcu⟩ := sentiment_metrics_counts crop (dc.market_news crop)
  refine ⟨sentiment_metrics crop (dc.market_news crop), ?_, hcp, hcn, hcu, ?_, ?_, ?_⟩
  · simp [analyze_market_sentiment_snd, hne]
  · intro hpos
    rw [hcp, hcn, hcu] at hpos ⊢
    rw [sentiment_metrics_score, if_pos hpos]
  · intro h0
    rw [hcp, hcn, hcu] at h0
    have h0f :
        ¬ 0 < ((dc.market_news crop).filter (fun x => x.sentiment = "positive")).length +
              ((dc.market_news crop).filter (fun x => x.sentiment = "negative")).length +
              ((dc.market_news crop).filter (fun x => x.sentiment = "neutral")).length := by
      omega
    constructor
    · rw [sentiment_metrics_score, if_neg h0f]
    · rw [sentiment_metrics_trend, sentiment_metrics_score, if_neg h0f]
      decide
  · rw [sentiment_metrics_score]
    by_cases hpos :
        0 < ((dc.market_news crop).filter (fun x => x.sentiment = "positive")).length +
            ((dc.market_news crop).filter (fun x => x.sentiment = "negative")).length +
            ((dc.market_news crop).filter (fun x => x.sentiment = "neutral")).length
    · rw [if_pos hpos]
      have ht :
          (0 : Rat) <
            ((((dc.market_news crop).filter (fun x => x.sentiment = "positive")).length +
              ((dc.market_news crop).filter (fun x => x.sentiment = "negative")).length +
              ((dc.market_news crop).filter (fun x => x.sentiment = "neutral")).length : Nat) : Rat) := by
        exact_mod_cast hpos
      have hp0 : (0 : Rat) ≤
          (((dc.market_news crop).filter (fun x => x.sentiment = "positive")).length : Rat) := by
        positivity
      have hn0 : (0 : Rat) ≤
          (((dc.market_news crop).filter (fun x => x.sentiment = "negative")).length : Rat) := by
        positivity
      have hu0 : (0 : Rat) ≤
          (((dc.market_news crop).filter (fun x => x.sentiment = "neutral")).length : Rat) := by
        positivity
      constructor
      · rw [le_div_iff₀ ht]
        push_cast
        linarith
      · rw [div_le_one ht]
        push_cast
        linarith
    · rw [if_neg hpos]
      constructor <;> norm_num

/-- Witness for C6 at the sample collector (3 positive, 1 negative, score
1/2). -/
theorem sentiment_score_bounds_witness :
    dcSample.market_news "wheat" ≠ [] ∧
    (∃ a, (analyze_market_sentiment dcSample st0 "wheat").2 = some a ∧
      a.positive_news_count =
        ((dcSample.market_news "wheat").filter (fun x => x.sentiment = "positive")).length ∧
      a.negative_news_count =
        ((dcSample.market_news "wheat").filter (fun x => x.sentiment = "negative")).length ∧
      a.neutral_news_count =
        ((dcSample.market_news "wheat").filter (fun x => x.sentiment = "neutral")).length ∧
      (0 < a.positive_news_count + a.negative_news_count + a.neutral_news_count →
        a.sentiment_score =
          ((a.positive_news_count : Rat) - (a.negative_news_count : Rat)) /
            ((a.positive_news_count + a.negative_news_count +
                a.neutral_news_count : Nat) : Rat)) ∧
      (a.positive_news_count + a.negative_news_count + a.neutral_news_count = 0 →
        a.sentiment_score = 0 ∧ a.sentiment_trend = "neutral") ∧
      -1 ≤ a.sentiment_score ∧ a.sentiment_score ≤ 1) :=
  ⟨by decide, sentiment_score_bounds dcSample st0 "wheat" (by decide)⟩

/-- `weatherImpact` at crop "wheat", unfolded. -/
theorem weatherImpact_wheat (t p : Rat) :
    weatherImpact "wheat" t p =
      (if t > 25 ∧ p < 10 then
        ("negative", "High temperatures and low precipitation may stress wheat crops.")
      else if t < 15 ∧ p > 30 then
        ("negative", "Low temperatures and excessive rainfall may damage wheat crops.")
      else
        ("neutral to positive", "Weather conditions appear favorable for wheat crops.")) := rfl

/-- `weatherImpact` at crop "corn", unfolded. -/
theorem weatherImpact_corn (t p : Rat) :
    weatherImpact "corn" t p =
      (if t < 18 ∨ p < 15 then
        ("negative", "Low temperatures or insufficient rainfall may reduce corn yields.")
      else if t > 30 ∧ p < 20 then
        ("negative", "High heat and insufficient moisture may stress corn crops.")
      else
        ("neutral to positive", "Weather conditions appear favorable for corn growth.")) := rfl

/-- `weatherImpact` at crop "soybeans", unfolded. -/
theorem weatherImpact_soybeans (t p : Rat) :
    weatherImpact "soybeans" t p =
      (if t < 20 ∨ p < 10 then
        ("negative", "Low temperatures or dry conditions may reduce soybean yields.")
      else if p > 40 then
        ("negative", "Excessive rainfall may lead to disease pressure in soybeans.")
      else
        ("neutral to positive", "Weather conditions appear favorable for soybean development.")) := rfl

/-- `weatherImpact` at any other crop, unfolded. -/
theorem weatherImpact_other (crop : String) (t p : Rat)
    (h1 : crop ≠ "wheat") (h2 : crop ≠ "corn") (h3 : crop ≠ "soybeans") :
    weatherImpact crop t p =
      ("uncertain",
       "Weather impact analysis not specifically calibrated for " ++ crop ++ ".") := by
  unfold weatherImpact
  rw [if_neg h1, if_neg h2, if_neg h3]

/-- C5: The weather impact classification is pure and total: for wheat,
corn and soybeans it equals the documented two-step ladder, any other crop
maps to "uncertain" with a generic explanation naming the crop, and on a
nonempty forecast `analyze_weather_impact` stores exactly this
classification of the forecast aggregates. -/
theorem weather_classification_total (t p : Rat) (crop : String) :
    ((weatherImpact "wheat" t p).1 =
      if t > 25 ∧ p < 10 then "negative"
      else if t < 15 ∧ p > 30 then "negative"
      else "neutral to positive") ∧
    ((weatherImpact "corn" t p).1 =
      if t < 18 ∨ p < 15 then "negative"
      else if t > 30 ∧ p < 20 then "negative"
      else "neutral to positive") ∧
    ((weatherImpact "soybeans" t p).1 =
      if t < 20 ∨ p < 10 then "negative"
      else if p > 40 then "negative"
      else "neutral to positive") ∧
    (crop ≠ "wheat" → crop ≠ "corn" → crop ≠ "soybeans" →
      weatherImpact crop t p =
        ("uncertain",
         "Weather impact analysis not specifically calibrated for " ++ crop ++ ".")) ∧
    (∀ (dc : DataCollector) (st : AnalyzerState) (region : String),
      dc.weather_forecast region ≠ [] →
      ∃ a, (analyze_weather_impact dc st crop region).2 = some a ∧
        a.weather_impact =
          (weatherImpact crop
            (mean ((dc.weather_forecast region).map (fun d => d.temperature)))
            (((dc.weather_forecast region).map (fun d => d.precipitation)).sum)).1) := by
  refine ⟨?_, ?_, ?_, ?_, ?_⟩
  · rw [weatherImpact_wheat]
    split
    · rfl
    · split <;> rfl
  · rw [weatherImpact_corn]
    split
    · rfl
    · split <;> rfl
  · rw [weatherImpact_soybeans]
    split
    · rfl
    · split <;> rfl
  · intro h1 h2 h3
    exact weatherImpact_other crop t p h1 h2 h3
  · intro dc st region hne
    have hf := isEmpty_false_of_ne_nil hne
    refine ⟨weather_metrics crop region (dc.weather_forecast region), ?_, rfl⟩
    simp [analyze_weather_impact_snd, hf]

/-- Witness for C5 at concrete aggregates and the crop "rice", with all
the branch hypotheses discharged. -/
theorem weather_classification_total_witness :
    ((weatherImpact "wheat" 22 13).1 =
      if (22 : Rat) > 25 ∧ (13 : Rat) < 10 then "negative"
      else if (22 : Rat) < 15 ∧ (13 : Rat) > 30 then "negative"
      else "neutral to positive") ∧
    (weatherImpact "rice" 22 13 =
      ("uncertain",
       "Weather impact analysis not specifically calibrated for " ++ "rice" ++ ".")) ∧
    (∃ a, (analyze_weather_impact dcSample st0 "rice" "midwest").2 = some a ∧
      a.weather_impact =
        (weatherImpact "rice"
          (mean ((dcSample.weather_forecast "midwest").map (fun d => d.temperature)))
          (((dcSample.weather_forecast "midwest").map (fun d => d.precipitation)).sum)).1) := by
  have h := weather_classification_total 22 13 "rice"
  exact ⟨h.1, h.2.2.2.1 (by decide) (by decide) (by decide),
    h.2.2.2.2 dcSample st0 "midwest" (by decide)⟩

/-- C3: Evaluation of the code at the failing input of the claim.  On an
entirely empty raw price series `analyze_price_trends` raises (the
unguarded `historical_data['date'][0]` of `data_analyzer.py` line 39)
instead of yielding `None`, and `get_comprehensive_analysis` propagates the
exception instead of returning a well-formed record — while the guarded
sentiment and weather analyzers do yield `None` on their empty datasets. -/
theorem empty_series_raises :
    analyze_price_trends dcEmpty 0 st0 "wheat" "1 month" =
      .error "KeyError: 0" ∧
    get_comprehensive_analysis dcEmpty 0 st0 "wheat" "1 month" "2024-01-01" =
      .error "KeyError: 0" ∧
    (analyze_market_sentiment dcEmpty st0 "wheat").2 = none ∧
    (analyze_weather_impact dcEmpty st0 "wheat" "midwest").2 = none :=
  ⟨rfl, rfl, rfl, rfl⟩

/-! ## Memoization machinery for the aggregator (C9) -/

/-- Number of recorded invocations of the price analyzer for a given crop
and timeframe. -/
def countPrice (l : List LogEntry) (crop tf : String) : Nat :=
  (l.filter (fun e => e = LogEntry.priceRun crop tf)).length

/-- Number of recorded invocations of the sentiment analyzer for a crop. -/
def countSentiment (l : List LogEntry) (crop : String) : Nat :=
  (l.filter (fun e => e = LogEntry.sentimentRun crop)).length

/-- Number of recorded invocations of the weather analyzer for a crop and
region. -/
def countWeather (l : List LogEntry) (crop region : String) : Nat :=
  (l.filter (fun e => e = LogEntry.weatherRun crop region)).length

theorem countPrice_append_ne (l : List LogEntry) (e : LogEntry)
    (crop tf : String) (h : e ≠ LogEntry.priceRun crop tf) :
    countPrice (l ++ [e]) crop tf = countPrice l crop tf := by
  simp [countPrice, List.filter_append, h]

theorem countSentiment_append_ne (l : List LogEntry) (e : LogEntry)
    (crop : String) (h : e ≠ LogEntry.sentimentRun crop) :
    countSentiment (l ++ [e]) crop = countSentiment l crop := by
  simp [countSentiment, List.filter_append, h]

theorem countWeather_append_ne (l : List LogEntry) (e : LogEntry)
    (crop region : String) (h : e ≠ LogEntry.weatherRun crop region) :
    countWeather (l ++ [e]) crop region = countWeather l crop region := by
  simp [countWeather, List.filter_append, h]

/-- A present key keeps its value through the aggregator's price step. -/
theorem stepPrice_ok_find (dc : DataCollector) (now : Int)
    (st : AnalyzerState) (crop tf k : String) (v : AnalysisVal)
    (st1 : AnalyzerState) (hv : assocFind st.results k = some v)
    (h : stepPrice dc now st crop tf = .ok st1) :
    assocFind st1.results k = some v := by
  unfold stepPrice at h
  by_cases hc : (assocFind st.results (priceKey crop tf)).isNone
  · rw [if_pos hc] at h
    cases hA : analyze_price_trends dc now st crop tf with
    | error e => rw [hA] at h; simp at h
    | ok p =>
      rw [hA] at h
      cases h
      have hres := (analyze_price_trends_ok_spec dc now st crop tf p hA).2.2
      rw [hres]
      split
      · exact hv
      · rw [assocFind_cons]
        by_cases hk : priceKey crop tf = k
        · subst hk
          rw [hv] at hc
          simp at hc
        · rw [if_neg hk]
          exact hv
  · rw [if_neg hc] at h
    cases h
    exact hv

/-- A present key keeps its value through the sentiment step. -/
theorem stepSentiment_find (dc : DataCollector) (st : AnalyzerState)
    (crop k : String) (v : AnalysisVal)
    (hv : assocFind st.results k = some v) :
    assocFind (stepSentiment dc st crop).results k = some v := by
  unfold stepSentiment
  by_cases hc : (assocFind st.results (sentimentKey crop)).isNone
  · rw [if_pos hc, analyze_market_sentiment_results]
    split
    · exact hv
    · rw [assocFind_cons]
      by_cases hk : sentimentKey crop = k
      · subst hk
        rw [hv] at hc
        simp at hc
      · rw [if_neg hk]
        exact hv
  · rw [if_neg hc]
    exact hv

/-- A present key keeps its value through the weather step. -/
theorem stepWeather_find (dc : DataCollector) (st : AnalyzerState)
    (crop k : String) (v : AnalysisVal)
    (hv : assocFind st.results k = some v) :
    assocFind (stepWeather dc st crop).results k = some v := by
  unfold stepWeather
  by_cases hc : (assocFind st.results (weatherKey crop)).isNone
  · rw [if_pos hc, analyze_weather_impact_results]
    split
    · exact hv
    · rw [assocFind_cons]
      by_cases hk : weatherKey crop = k
      · subst hk
        rw [hv] at hc
        simp at hc
      · rw [if_neg hk]
        exact hv
  · rw [if_neg hc]
    exact hv

/-- The price step leaves the log alone or appends its own marker. -/
theorem stepPrice_ok_log (dc : DataCollector) (now : Int)
    (st : AnalyzerState) (crop tf : String) (st1 : AnalyzerState)
    (h : stepPrice dc now st crop tf = .ok st1) :
    st1.log = st.log ∨ st1.log = st.log ++ [.priceRun crop tf] := by
  unfold stepPrice at h
  by_cases hc : (assocFind st.results (priceKey crop tf)).isNone
  · rw [if_pos hc] at h
    cases hA : analyze_price_trends dc now st crop tf with
    | error e => rw [hA] at h; simp at h
    | ok p =>
      rw [hA] at h
      cases h
      exact Or.inr (analyze_price_trends_ok_spec dc now st crop tf p hA).1
  · rw [if_neg hc] at h
    cases h
    exact Or.inl rfl

/-- The sentiment step leaves the log alone or appends its own marker. -/
theorem stepSentiment_log (dc : DataCollector) (st : AnalyzerState)
    (crop : String) :
    (stepSentiment dc st crop).log = st.log ∨
      (stepSentiment dc st crop).log = st.log ++ [.sentimentRun crop] := by
  unfold stepSentiment
  by_cases hc : (assocFind st.results (sentimentKey crop)).isNone
  · rw [if_pos hc, analyze_market_sentiment_log]
    exact Or.inr rfl
  · rw [if_neg hc]
    exact Or.inl rfl

/-- The weather step leaves the log alone or appends its own marker. -/
theorem stepWeather_log (dc : DataCollector) (st : AnalyzerState)
    (crop : String) :
    (stepWeather dc st crop).log = st.log ∨
      (stepWeather dc st crop).log = st.log ++ [.weatherRun crop "midwest"] := by
  unfold stepWeather
  by_cases hc : (assocFind st.results (weatherKey crop)).isNone
  · rw [if_pos hc, analyze_weather_impact_log]
    exact Or.inr rfl
  · rw [if_neg hc]
    exact Or.inl rfl

/-- If the sentiment step would run on a present key, the step is the
identity. -/
theorem stepPrice_skip (dc : DataCollector) (now : Int) (st : AnalyzerState)
    (crop tf : String)
    (h : (assocFind st.results (priceKey crop tf)).isSome) :
    stepPrice dc now st crop tf = .ok st := by
  unfold stepPrice
  rw [if_neg]
  cases hf : assocFind st.results (priceKey crop tf) with
  | none => rw [hf] at h; simp at h
  | some v => simp

theorem stepSentiment_id (dc : DataCollector) (st : AnalyzerState)
    (crop : String)
    (h : (assocFind st.results (sentimentKey crop)).isSome) :
    stepSentiment dc st crop = st := by
  unfold stepSentiment
  rw [if_neg]
  cases hf : assocFind st.results (sentimentKey crop) with
  | none => rw [hf] at h; simp at h
  | some v => simp

theorem stepWeather_id (dc : DataCollector) (st : AnalyzerState)
    (crop : String)
    (h : (assocFind st.results (weatherKey crop)).isSome) :
    stepWeather dc st crop = st := by
  unfold stepWeather
  rw [if_neg]
  cases hf : assocFind st.results (weatherKey crop) with
  | none => rw [hf] at h; simp at h
  | some v => simp

/-- After the price step its own key is present, provided the window is
nonempty. -/
theorem stepPrice_ok_own (dc : DataCollector) (now : Int)
    (st : AnalyzerState) (crop tf : String) (st1 : AnalyzerState)
    (hwin : priceWindow dc now crop tf ≠ [])
    (h : stepPrice dc now st crop tf = .ok st1) :
    (assocFind st1.results (priceKey crop tf)).isSome := by
  unfold stepPrice at h
  by_cases hc : (assocFind st.results (priceKey crop tf)).isNone
  · rw [if_pos hc] at h
    cases hA : analyze_price_trends dc now st crop tf with
    | error e => rw [hA] at h; simp at h
    | ok p =>
      rw [hA] at h
      cases h
      have hres := (analyze_price_trends_ok_spec dc now st crop tf p hA).2.2
      rw [hres, isEmpty_false_of_ne_nil hwin]
      simp
  · rw [if_neg hc] at h
    cases h
    cases hf : assocFind st.results (priceKey crop tf) with
    | none => rw [hf] at hc; simp at hc
    | some v => simp [hf]

/-- With a nonempty raw series the price step never raises. -/
theorem stepPrice_total (dc : DataCollector) (now : Int) (st : AnalyzerState)
    (crop tf : String) (hser : dc.historical_prices crop ≠ []) :
    ∃ st1, stepPrice dc now st crop tf = .ok st1 := by
  unfold stepPrice
  by_cases hc : (assocFind st.results (priceKey crop tf)).isNone
  · rw [if_pos hc]
    cases hA : analyze_price_trends dc now st crop tf with
    | error e =>
      exact absurd (analyze_price_trends_error dc now st crop tf e hA) hser
    | ok p => exact ⟨p.1, rfl⟩
  · rw [if_neg hc]
    exact ⟨st, rfl⟩

/-- After the sentiment step its own key is present, provided the news list
is nonempty. -/
theorem stepSentiment_own (dc : DataCollector) (st : AnalyzerState)
    (crop : String) (hnews : dc.market_news crop ≠ []) :
    (assocFind (stepSentiment dc st crop).results (sentimentKey crop)).isSome := by
  unfold stepSentiment
  by_cases hc : (assocFind st.results (sentimentKey crop)).isNone
  · rw [if_pos hc, analyze_market_sentiment_results,
      isEmpty_false_of_ne_nil hnews]
    simp
  · rw [if_neg hc]
    cases hf : assocFind st.results (sentimentKey crop) with
    | none => rw [hf] at hc; simp at hc
    | some v => simp

/-- After the weather step its own key is present, provided the forecast is
nonempty. -/
theorem stepWeather_own (dc : DataCollector) (st : AnalyzerState)
    (crop : String) (hw : dc.weather_forecast "midwest" ≠ []) :
    (assocFind (stepWeather dc st crop).results (weatherKey crop)).isSome := by
  unfold stepWeather
  by_cases hc : (assocFind st.results (weatherKey crop)).isNone
  · rw [if_pos hc, analyze_weather_impact_results,
      isEmpty_false_of_ne_nil hw]
    simp
  · rw [if_neg hc]
    cases hf : assocFind st.results (weatherKey crop) with
    | none => rw [hf] at hc; simp at hc
    | some v => simp

/-- Key presence is monotone through each step. -/
theorem stepSentiment_isSome (dc : DataCollector) (st : AnalyzerState)
    (crop k : String) (h : (assocFind st.results k).isSome) :
    (assocFind (stepSentiment dc st crop).results k).isSome := by
  cases hf : assocFind st.results k with
  | none => rw [hf] at h; simp at h
  | some v => rw [stepSentiment_find dc st crop k v hf]; simp

theorem stepWeather_isSome (dc : DataCollector) (st : AnalyzerState)
    (crop k : String) (h : (assocFind st.results k).isSome) :
    (assocFind (stepWeather dc st crop).results k).isSome := by
  cases hf : assocFind st.results k with
  | none => rw [hf] at h; simp at h
  | some v => rw [stepWeather_find dc st crop k v hf]; simp

/-- An analyzer state holding results under all three keys for wheat and
"1 month". -/
def stFull : AnalyzerState :=
  { results := [(priceKey "wheat" "1 month", .price samplePrice),
                (sentimentKey "wheat", .sentiment sampleSentiment),
                (weatherKey "wheat", .weather sampleWeather)]
    log := [] }

/-- A collector whose price series is nonempty but entirely outside every
trailing window (a stale date), with empty news and forecast: every
analyzer completes, and each yields no result. -/
def dcStale : DataCollector :=
  { historical_prices := fun _ => [{ date := -100, crop := "wheat", price := 100 }]
    market_news := fun _ => []
    weather_forecast := fun _ => [] }

/-- C9 (amended): `get_comprehensive_analysis` never recomputes a
sub-analysis whose key is present (the memoized value is served unchanged
and that analyzer is not invoked), and when all three datasets can yield
results (nonempty window, news, forecast) the call completes and a repeated
call runs no analyzer and returns the identical pair; but a key is stored
only when the analyzer yields a result, so "at most once per key" holds
only for keys whose analyzer produced a result. -/
theorem comprehensive_memoization (dc : DataCollector) (now : Int)
    (st : AnalyzerState) (crop tf d : String) (vp vs vw : AnalysisVal) :
    (assocFind st.results (priceKey crop tf) = some vp →
      ∃ stc, get_comprehensive_analysis dc now st crop tf d = .ok stc ∧
        countPrice stc.1.log crop tf = countPrice st.log crop tf ∧
        assocFind stc.1.results (priceKey crop tf) = some vp ∧
        stc.2.price_analysis = some vp) ∧
    (assocFind st.results (sentimentKey crop) = some vs →
      ∀ stc, get_comprehensive_analysis dc now st crop tf d = .ok stc →
        countSentiment stc.1.log crop = countSentiment st.log crop ∧
        assocFind stc.1.results (sentimentKey crop) = some vs ∧
        stc.2.sentiment_analysis = some vs) ∧
    (assocFind st.results (weatherKey crop) = some vw →
      ∀ stc, get_comprehensive_analysis dc now st crop tf d = .ok stc →
        countWeather stc.1.log crop "midwest" =
          countWeather st.log crop "midwest" ∧
        assocFind stc.1.results (weatherKey crop) = some vw ∧
        stc.2.weather_analysis = some vw) ∧
    (priceWindow dc now crop tf ≠ [] → dc.market_news crop ≠ [] →
      dc.weather_forecast "midwest" ≠ [] →
      ∃ stc, get_comprehensive_analysis dc now st crop tf d = .ok stc ∧
        get_comprehensive_analysis dc now stc.1 crop tf d = .ok stc) := by
  refine ⟨?_, ?_, ?_, ?_⟩
  · intro hp
    have hsome : (assocFind st.results (priceKey crop tf)).isSome := by
      rw [hp]; rfl
    have hskip : stepPrice dc now st crop tf = .ok st :=
      stepPrice_skip dc now st crop tf hsome
    have hf2 : assocFind (stepSentiment dc st crop).results
        (priceKey crop tf) = some vp :=
      stepSentiment_find dc st crop _ vp hp
    have hf3 : assocFind (stepWeather dc (stepSentiment dc st crop)
        crop).results (priceKey crop tf) = some vp :=
      stepWeather_find dc _ crop _ vp hf2
    refine ⟨(stepWeather dc (stepSentiment dc st crop) crop,
             { crop := crop, timeframe := tf
               price_analysis :=
                 assocFind (stepWeather dc (stepSentiment dc st crop)
                   crop).results (priceKey crop tf)
               sentiment_analysis :=
                 assocFind (stepWeather dc (stepSentiment dc st crop)
                   crop).results (sentimentKey crop)
               weather_analysis :=
                 assocFind (stepWeather dc (stepSentiment dc st crop)
                   crop).results (weatherKey crop)
               analysis_date := d }), ?_, ?_, hf3, hf3⟩
    · simp only [get_comprehensive_analysis, hskip]
    · show countPrice (stepWeather dc (stepSentiment dc st crop) crop).log
        crop tf = countPrice st.log crop tf
      have hmid : countPrice (stepSentiment dc st crop).log crop tf =
          countPrice st.log crop tf := by
        rcases stepSentiment_log dc st crop with h2 | h2
        · rw [h2]
        · rw [h2, countPrice_append_ne _ _ _ _ (by simp)]
      rcases stepWeather_log dc (stepSentiment dc st crop) crop with h3 | h3
      · rw [h3, hmid]
      · rw [h3, countPrice_append_ne _ _ _ _ (by simp), hmid]
  · intro hs stc hok
    cases hP : stepPrice dc now st crop tf with
    | error e =>
      rw [get_comprehensive_analysis, hP] at hok
      simp at hok
    | ok st1 =>
      rw [get_comprehensive_analysis, hP] at hok
      simp only at hok
      cases hok
      have hf1 : assocFind st1.results (sentimentKey crop) = some vs :=
        stepPrice_ok_find dc now st crop tf _ vs st1 hs hP
      have hsome : (assocFind st1.results (sentimentKey crop)).isSome := by
        rw [hf1]; rfl
      have hskip2 : stepSentiment dc st1 crop = st1 :=
        stepSentiment_id dc st1 crop hsome
      have hf3 : assocFind (stepWeather dc (stepSentiment dc st1 crop)
          crop).results (sentimentKey crop) = some vs := by
        rw [hskip2]
        exact stepWeather_find dc st1 crop _ vs hf1
      refine ⟨?_, hf3, hf3⟩
      show countSentiment (stepWeather dc (stepSentiment dc st1 crop)
        crop).log crop = countSentiment st.log crop
      have hmid : countSentiment st1.log crop = countSentiment st.log crop := by
        rcases stepPrice_ok_log dc now st crop tf st1 hP with h1 | h1
        · rw [h1]
        · rw [h1, countSentiment_append_ne _ _ _ (by simp)]
      rw [hskip2]
      rcases stepWeather_log dc st1 crop with h3 | h3
      · rw [h3, hmid]
      · rw [h3, countSentiment_append_ne _ _ _ (by simp), hmid]
  · intro hw stc hok
    cases hP : stepPrice dc now st crop tf with
    | error e =>
      rw [get_comprehensive_analysis, hP] at hok
      simp at hok
    | ok st1 =>
      rw [get_comprehensive_analysis, hP] at hok
      simp only at hok
      cases hok
      have hf1 : assocFind st1.results (weatherKey crop) = some vw :=
        stepPrice_ok_find dc now st crop tf _ vw st1 hw hP
      have hf2 : assocFind (stepSentiment dc st1 crop).results
          (weatherKey crop) = some vw :=
        stepSentiment_find dc st1 crop _ vw hf1
      have hsome : (assocFind (stepSentiment dc st1 crop).results
          (weatherKey crop)).isSome := by
        rw [hf2]; rfl
      have hskip3 : stepWeather dc (stepSentiment dc st1 crop) crop =
          stepSentiment dc st1 crop :=
        stepWeather_id dc _ crop hsome
      refine ⟨?_, ?_, ?_⟩
      · show countWeather (stepWeather dc (stepSentiment dc st1 crop)
          crop).log crop "midwest" = countWeather st.log crop "midwest"
        rw [hskip3]
        have hmid : countWeather st1.log crop "midwest" =
            countWeather st.log crop "midwest" := by
          rcases stepPrice_ok_log dc now st crop tf st1 hP with h1 | h1
          · rw [h1]
          · rw [h1, countWeather_append_ne _ _ _ _ (by simp)]
        rcases stepSentiment_log dc st1 crop with h2 | h2
        · rw [h2, hmid]
        · rw [h2, countWeather_append_ne _ _ _ _ (by simp), hmid]
      · show assocFind (stepWeather dc (stepSentiment dc st1 crop)
          crop).results (weatherKey crop) = some vw
        rw [hskip3]
        exact hf2
      · show assocFind (stepWeather dc (stepSentiment dc st1 crop)
          crop).results (weatherKey crop) = some vw
        rw [hskip3]
        exact hf2
  · intro h1 h2 h3
    have hser : dc.historical_prices crop ≠ [] := by
      intro hsnil
      exact h1 (priceWindow_nil_of_series_nil dc now crop tf hsnil)
    obtain ⟨st1, hP⟩ := stepPrice_total dc now st crop tf hser
    have p1 : (assocFind st1.results (priceKey crop tf)).isSome :=
      stepPrice_ok_own dc now st crop tf st1 h1 hP
    have p2 : (assocFind (stepSentiment dc st1 crop).results
        (priceKey crop tf)).isSome :=
      stepSentiment_isSome dc st1 crop _ p1
    have pP : (assocFind (stepWeather dc (stepSentiment dc st1 crop)
        crop).results (priceKey crop tf)).isSome :=
      stepWeather_isSome dc _ crop _ p2
    have s1 : (assocFind (stepSentiment dc st1 crop).results
        (sentimentKey crop)).isSome :=
      stepSentiment_own dc st1 crop h2
    have pS : (assocFind (stepWeather dc (stepSentiment dc st1 crop)
        crop).results (sentimentKey crop)).isSome :=
      stepWeather_isSome dc _ crop _ s1
    have pW : (assocFind (stepWeather dc (stepSentiment dc st1 crop)
        crop).results (weatherKey crop)).isSome :=
      stepWeather_own dc _ crop h3
    have hskip2 : stepPrice dc now
        (stepWeather dc (stepSentiment dc st1 crop) crop) crop tf =
        .ok (stepWeather dc (stepSentiment dc st1 crop) crop) :=
      stepPrice_skip dc now _ crop tf pP
    have hS2 : stepSentiment dc
        (stepWeather dc (stepSentiment dc st1 crop) crop) crop =
        stepWeather dc (stepSentiment dc st1 crop) crop :=
      stepSentiment_id dc _ crop pS
    have hW2 : stepWeather dc
        (stepWeather dc (stepSentiment dc st1 crop) crop) crop =
        stepWeather dc (stepSentiment dc st1 crop) crop :=
      stepWeather_id dc _ crop pW
    refine ⟨(stepWeather dc (stepSentiment dc st1 crop) crop,
             { crop := crop, timeframe := tf
               price_analysis :=
                 assocFind (stepWeather dc (stepSentiment dc st1 crop)
                   crop).results (priceKey crop tf)
               sentiment_analysis :=
                 assocFind (stepWeather dc (stepSentiment dc st1 crop)
                   crop).results (sentimentKey crop)
               weather_analysis :=
                 assocFind (stepWeather dc (stepSentiment dc st1 crop)
                   crop).results (weatherKey crop)
               analysis_date := d }), ?_, ?_⟩
    · simp only [get_comprehensive_analysis, hP]
    · simp only [get_comprehensive_analysis, hskip2, hS2, hW2]

/-- Witness for the amended C9 at concrete data: with all three keys
present the aggregator completes, serves the memoized records and runs
nothing new, and a repeat call returns the identical pair. -/
theorem comprehensive_memoization_witness :
    ∃ stc, get_comprehensive_analysis dcSample 30 stFull "wheat" "1 month"
        "2024-01-01" = .ok stc ∧
      countPrice stc.1.log "wheat" "1 month" =
        countPrice stFull.log "wheat" "1 month" ∧
      stc.2.price_analysis = some (.price samplePrice) ∧
      countSentiment stc.1.log "wheat" = countSentiment stFull.log "wheat" ∧
      stc.2.sentiment_analysis = some (.sentiment sampleSentiment) ∧
      countWeather stc.1.log "wheat" "midwest" =
        countWeather stFull.log "wheat" "midwest" ∧
      stc.2.weather_analysis = some (.weather sampleWeather) ∧
      get_comprehensive_analysis dcSample 30 stc.1 "wheat" "1 month"
        "2024-01-01" = .ok stc := by
  have h := comprehensive_memoization dcSample 30 stFull "wheat" "1 month"
    "2024-01-01" (.price samplePrice) (.sentiment sampleSentiment)
    (.weather sampleWeather)
  obtain ⟨stc, hok, hc1, hf1, hr1⟩ := h.1 (by decide)
  obtain ⟨sc1, sf1, sr1⟩ := h.2.1 (by decide) stc hok
  obtain ⟨wc1, wf1, wr1⟩ := h.2.2.1 (by decide) stc hok
  obtain ⟨stc2, hok2, hsec⟩ := h.2.2.2 (by decide) (by decide) (by decide)
  have heq : stc = stc2 := by
    rw [hok] at hok2
    injection hok2
  subst heq
  exact ⟨stc, hok, hc1, hr1, sc1, sr1, wc1, wr1, hsec⟩

/-- C9 counterexample to the claim as stated: with a nonempty but stale
price series (and empty news and forecast) every analyzer completes and
yields no result, so no key is ever stored and two aggregator calls invoke
the price analyzer twice for the same (crop, timeframe) key — not "at most
once per key". -/
theorem comprehensive_memoization_counterexample :
    ¬ ((((get_comprehensive_analysis dcStale 0 st0 "wheat" "1 month"
              "d").toOption.bind
            (fun p => (get_comprehensive_analysis dcStale 0 p.1 "wheat"
              "1 month" "d").toOption)).map
          (fun p => countPrice p.1.log "wheat" "1 month")).getD 0 ≤ 1) := by
  decide

/-! ## Advisory claims (C1, C4, C8, C10) -/

theorem string_append_left_cancel {s x y : String} (h : s ++ x = s ++ y) :
    x = y := by
  apply String.ext
  have hd := congrArg String.data h
  rw [String.data_append, String.data_append] at hd
  exact List.append_cancel_left hd

theorem string_append_right_cancel {s x y : String} (h : x ++ s = y ++ s) :
    x = y := by
  apply String.ext
  have hd := congrArg String.data h
  rw [String.data_append, String.data_append] at hd
  exact List.append_cancel_right hd

/-- C1: Whenever the external LLM call fails (the prompt was built and the
service returned an error), `get_advisory` returns — without raising — a
degraded `AdvisoryResponse` whose `advice` field is the human-readable
failure message naming the error and whose `data_summary` is omitted. -/
theorem get_advisory_llm_failure_degraded (fs : CacheFS)
    (llm : String → Except String String) (writeErr : Option String)
    (now : String) (a : Comprehensive) (q : String) (fr : Bool)
    (prompt e : String)
    (hmiss : cache_read fs (cache_key a q) fr = none)
    (hfmt : format_prompt a q = .ok prompt)
    (hllm : llm prompt = .error e) :
    get_advisory fs llm writeErr now a q fr =
      .ok (fs, { query := q, crop := a.crop,
                 advice := "Unable to generate advisory at this time. Error: " ++ e,
                 data_summary := none, timestamp := now }) := by
  simp only [get_advisory, hmiss, hfmt, hllm]
  rfl

/-- Witness for C1 at a concrete comprehensive record and a failing
service. -/
theorem get_advisory_llm_failure_degraded_witness :
    get_advisory [] (fun _ => .error "boom") none "2024-01-01 00:00:00"
        sampleComp "Should I sell my wheat now?" false =
      .ok ([], { query := "Should I sell my wheat now?", crop := "wheat",
                 advice := "Unable to generate advisory at this time. Error: boom",
                 data_summary := none, timestamp := "2024-01-01 00:00:00" }) :=
  get_advisory_llm_failure_degraded [] (fun _ => .error "boom") none
    "2024-01-01 00:00:00" sampleComp "Should I sell my wheat now?" false
    samplePrompt "boom" rfl rfl rfl

/-- C10: A degraded response produced on an LLM failure is never persisted:
the cache is returned unchanged, the key still has no entry, and a
subsequent call with the same analysis and query reaches the external
service again (here succeeding and caching a fresh response). -/
theorem degraded_response_not_cached (fs : CacheFS)
    (llm llm2 : String → Except String String) (writeErr : Option String)
    (now now2 : String) (a : Comprehensive) (q : String)
    (prompt e adv : String)
    (hfs : assocFind fs (cache_key a q) = none)
    (hfmt : format_prompt a q = .ok prompt)
    (hllm : llm prompt = .error e)
    (hllm2 : llm2 prompt = .ok adv) :
    ∃ fs1, get_advisory fs llm writeErr now a q false =
        .ok (fs1, degraded_response a.crop q e now) ∧
      fs1 = fs ∧
      assocFind fs1 (cache_key a q) = none ∧
      get_advisory fs1 llm2 none now2 a q false =
        .ok ((cache_key a q, .ok (fresh_response a q adv now2)) :: fs1,
             fresh_response a q adv now2) := by
  have hmiss : cache_read fs (cache_key a q) false = none := by
    simp only [cache_read, hfs]
    rfl
  refine ⟨fs, ?_, rfl, hfs, ?_⟩
  · simp only [get_advisory, hmiss, hfmt, hllm]
  · simp only [get_advisory, hmiss, hfmt, hllm2]

/-- Witness for C10: the failing first call caches nothing and the retry
with a healthy service returns and caches a fresh advisory. -/
theorem degraded_response_not_cached_witness :
    ∃ fs1, get_advisory [] (fun _ => .error "boom") (some "disk full") "t1"
        sampleComp "q" false =
        .ok (fs1, degraded_response sampleComp.crop "q" "boom" "t1") ∧
      fs1 = [] ∧
      assocFind fs1 (cache_key sampleComp "q") = none ∧
      get_advisory fs1 (fun _ => .ok "ADVICE") none "t2" sampleComp "q" false =
        .ok ((cache_key sampleComp "q",
               .ok (fresh_response sampleComp "q" "ADVICE" "t2")) :: fs1,
             fresh_response sampleComp "q" "ADVICE" "t2") :=
  degraded_response_not_cached [] (fun _ => .error "boom")
    (fun _ => .ok "ADVICE") (some "disk full") "t1" "t2" sampleComp "q"
    samplePromptQ "boom" "ADVICE" rfl rfl rfl rfl

/-- C8 (amended): a failure to read a cache entry is treated as a cache
miss — the advisory is regenerated, returned and cached; but a failure to
write the fresh entry is caught by the same handler and makes
`get_advisory` return a degraded response carrying the write error (the
fresh result is lost), with nothing cached. -/
theorem cache_failure_handling (fs : CacheFS)
    (llm : String → Except String String) (now : String) (a : Comprehensive)
    (q : String) (prompt adv msg m : String) (fr : Bool)
    (hfmt : format_prompt a q = .ok prompt)
    (hllm : llm prompt = .ok adv) :
    (assocFind fs (cache_key a q) = some (.error msg) →
      get_advisory fs llm none now a q false =
        .ok ((cache_key a q, .ok (fresh_response a q adv now)) :: fs,
             fresh_response a q adv now)) ∧
    (cache_read fs (cache_key a q) fr = none →
      get_advisory fs llm (some m) now a q fr =
        .ok (fs, degraded_response a.crop q m now)) := by
  constructor
  · intro hcorrupt
    have hmiss : cache_read fs (cache_key a q) false = none := by
      simp only [cache_read, hcorrupt]
      rfl
    simp only [get_advisory, hmiss, hfmt, hllm]
  · intro hmiss
    simp only [get_advisory, hmiss, hfmt, hllm]

/-- Witness for the amended C8: a corrupt entry under the key falls through
to regeneration, while a write failure yields the degraded response. -/
theorem cache_failure_handling_witness :
    get_advisory [(cache_key sampleComp "q", .error "bad json")]
        (fun _ => .ok "ADVICE") none "t" sampleComp "q" false =
      .ok ((cache_key sampleComp "q",
             .ok (fresh_response sampleComp "q" "ADVICE" "t"))
           :: [(cache_key sampleComp "q", .error "bad json")],
           fresh_response sampleComp "q" "ADVICE" "t") ∧
    get_advisory [(cache_key sampleComp "q", .error "bad json")]
        (fun _ => .ok "ADVICE") (some "disk full") "t" sampleComp "q" false =
      .ok ([(cache_key sampleComp "q", .error "bad json")],
           degraded_response sampleComp.crop "q" "disk full" "t") := by
  have h := cache_failure_handling
    [(cache_key sampleComp "q", .error "bad json")]
    (fun _ => .ok "ADVICE") "t" sampleComp "q" samplePromptQ "ADVICE"
    "bad json" "disk full" false rfl rfl
  refine ⟨h.1 (assocFind_cons_self _ _ _), h.2 ?_⟩
  simp only [cache_read, assocFind_cons_self]
  rfl

/-- C8 counterexample to the claim as stated: when the cache write fails
after a successful LLM call, `get_advisory` does NOT return the freshly
generated response ("ADVICE" with a data summary) — it returns the degraded
error response instead. -/
theorem cache_write_failure_counterexample :
    ¬ ((get_advisory [] (fun _ => .ok "ADVICE") (some "disk full") "t"
          sampleComp "q" false).toOption.map
        (fun p => (p.2.advice, p.2.data_summary.isSome)) =
       some ("ADVICE", true)) := by
  decide

/-- C4: Two calls of `get_advisory` with identical analysis and query and
`force_refresh = false` return byte-identical responses including the first
call's timestamp (the second call is a cache hit served unchanged, whatever
the service or clock then does); the cache key is the deterministic content
hash of the serialized analysis concatenated with the query, so a changed
query (same analysis) or a changed serialized analysis (same query) gives a
different key and therefore misses. -/
theorem advisory_cache_idempotent (fs : CacheFS)
    (llm llm2 : String → Except String String) (w2 : Option String)
    (t1 t2 : String) (a : Comprehensive) (q prompt adv : String)
    (hfs : assocFind fs (cache_key a q) = none)
    (hfmt : format_prompt a q = .ok prompt)
    (hllm : llm prompt = .ok adv) :
    ∃ r1, get_advisory fs llm none t1 a q false =
        .ok ((cache_key a q, .ok r1) :: fs, r1) ∧
      r1 = fresh_response a q adv t1 ∧
      r1.timestamp = t1 ∧
      get_advisory ((cache_key a q, .ok r1) :: fs) llm2 w2 t2 a q false =
        .ok ((cache_key a q, .ok r1) :: fs, r1) ∧
      (∀ q2, q2 ≠ q → cache_key a q2 ≠ cache_key a q) ∧
      (∀ a2, serializeAnalysis a2 ≠ serializeAnalysis a →
        cache_key a2 q ≠ cache_key a q) := by
  have hmiss : cache_read fs (cache_key a q) false = none := by
    simp only [cache_read, hfs]
    rfl
  refine ⟨fresh_response a q adv t1, ?_, rfl, rfl, ?_, ?_, ?_⟩
  · simp only [get_advisory, hmiss, hfmt, hllm]
  · have hhit : cache_read ((cache_key a q, .ok (fresh_response a q adv t1)) :: fs)
        (cache_key a q) false = some (fresh_response a q adv t1) := by
      simp only [cache_read, assocFind_cons_self]
      rfl
    simp only [get_advisory, hhit]
  · intro q2 hq heq
    exact hq (string_append_left_cancel heq)
  · intro a2 ha heq
    exact ha (string_append_right_cancel
      (string_append_right_cancel heq))

/-- Witness for C4 at a concrete record, query and service: the second
call is served from the cache unchanged even though the service is down,
the write would fail and the clock moved. -/
theorem advisory_cache_idempotent_witness :
    ∃ r1, get_advisory [] (fun _ => .ok "ADVICE") none "t1" sampleComp "q" false =
        .ok ((cache_key sampleComp "q", .ok r1) :: [], r1) ∧
      r1 = fresh_response sampleComp "q" "ADVICE" "t1" ∧
      r1.timestamp = "t1" ∧
      get_advisory ((cache_key sampleComp "q", .ok r1) :: [])
          (fun _ => .error "down") (some "disk full") "t2" sampleComp "q" false =
        .ok ((cache_key sampleComp "q", .ok r1) :: [], r1) ∧
      (∀ q2, q2 ≠ "q" → cache_key sampleComp q2 ≠ cache_key sampleComp "q") ∧
      (∀ a2, serializeAnalysis a2 ≠ serializeAnalysis sampleComp →
        cache_key a2 "q" ≠ cache_key sampleComp "q") :=
  advisory_cache_idempotent [] (fun _ => .ok "ADVICE")
    (fun _ => .error "down") (some "disk full") "t1" "t2" sampleComp "q"
    samplePromptQ "ADVICE" rfl rfl rfl

end AgriAdvisor
